import Mathlib

/-!
Shallow embedding of the wanwu repository (wanwu_lambda.py, build_lambda.py,
build_api_gateway.py) and theorems about its behaviour.

Python strings are modelled as Lean `String`, with the handful of `str`
methods the code uses (split on a one-character separator, partition, strip,
startswith, substring containment) implemented by structural recursion on the
underlying character list so that every definition evaluates by `decide`.
Python floats appear only as parsed `q` values that are compared and sorted;
they are modelled by `PyFloat`: nan, the two infinities, or a finite IEEE
binary64 value represented by its exact rational value. `float(s)` is
modelled by `pyfloat`, which parses the same spellings Python accepts
(decimal literals with underscores, nan, inf/infinity, surrounding Unicode
whitespace) and rounds decimals to the nearest binary64 value, so that every
comparison the program performs on doubles is performed here on the exact
rationals of those doubles; a parse failure models a raised `ValueError`.
-/

namespace Wanwu

set_option maxRecDepth 100000

/-! ### Python string primitives -/

/-- The characters `str.strip()` removes: every Unicode whitespace code
point (`Py_UNICODE_ISSPACE`, the code points where `str.isspace()` holds):
U+0009..U+000D, U+001C..U+001F, U+0020, U+0085, U+00A0, U+1680,
U+2000..U+200A, U+2028, U+2029, U+202F, U+205F and U+3000. -/
def pyWhitespace (c : Char) : Bool :=
  (9 ≤ c.toNat && c.toNat ≤ 13) || (28 ≤ c.toNat && c.toNat ≤ 31) ||
    c.toNat = 32 || c.toNat = 133 || c.toNat = 160 || c.toNat = 5760 ||
    (8192 ≤ c.toNat && c.toNat ≤ 8202) || c.toNat = 8232 || c.toNat = 8233 ||
    c.toNat = 8239 || c.toNat = 8287 || c.toNat = 12288

def stripChars (cs : List Char) : List Char :=
  ((cs.dropWhile pyWhitespace).reverse.dropWhile pyWhitespace).reverse

/-- `str.strip()` with no argument. -/
def pystrip (s : String) : String :=
  ⟨stripChars s.data⟩

/-- `str.split(sep)` for a one-character separator. -/
def splitChars (sep : Char) : List Char → List (List Char)
  | [] => [[]]
  | c :: cs =>
    if c = sep then [] :: splitChars sep cs
    else
      match splitChars sep cs with
      | [] => [[c]]
      | h :: t => (c :: h) :: t

def pysplit (s : String) (sep : Char) : List String :=
  (splitChars sep s.data).map (⟨·⟩)

/-- `str.partition(sep)` for a one-character separator: characters before the
first occurrence, whether the separator was found, characters after it. -/
def partitionChars (sep : Char) : List Char → List Char × Bool × List Char
  | [] => ([], false, [])
  | c :: cs =>
    if c = sep then ([], true, cs)
    else
      let r := partitionChars sep cs
      (c :: r.1, r.2.1, r.2.2)

/-- `str.partition(sep)` returning the usual Python triple. -/
def pypartition (s : String) (sep : Char) : String × String × String :=
  let r := partitionChars sep s.data
  (⟨r.1⟩, if r.2.1 then ⟨[sep]⟩ else "", ⟨r.2.2⟩)

def isPrefixChars : List Char → List Char → Bool
  | [], _ => true
  | _ :: _, [] => false
  | p :: ps, c :: cs => p == c && isPrefixChars ps cs

/-- `s.startswith(pre)`. -/
def pystartswith (s pre : String) : Bool :=
  isPrefixChars pre.data s.data

def containsChars (needle : List Char) : List Char → Bool
  | [] => isPrefixChars needle []
  | c :: t => isPrefixChars needle (c :: t) || containsChars needle t

/-- Python `sub in hay` substring test, as used on `str(err)`. -/
def pyContains (hay sub : String) : Bool :=
  containsChars sub.data hay.data

/-! ### Python float(): strings to IEEE binary64 values

`float(s)` strips surrounding whitespace, reads an optional sign and accepts
`nan`, `inf`/`infinity` (case-insensitive) or a decimal literal with optional
single underscores between digits and an optional exponent; anything else
raises `ValueError` (`none` here).  A finite result is the IEEE binary64
double nearest to the literal's exact value (round to nearest, ties to even,
overflow to the infinities, underflow through the subnormals to zero),
represented by its exact rational value, so every comparison the program
performs on doubles is a rational comparison here.  One deliberate model
boundary: Python also accepts non-ASCII Unicode decimal digits (e.g. U+0661
or fullwidth digits); digit characters are modelled as ASCII only. -/

/-- A Python float value. -/
inductive PyFloat where
  | finite (q : ℚ)
  | inf
  | ninf
  | nan
deriving DecidableEq

/-- Python `>` on floats: every comparison with nan is false. -/
def pyFloatGt : PyFloat → PyFloat → Bool
  | .nan, _ => false
  | _, .nan => false
  | .inf, .inf => false
  | .inf, _ => true
  | .ninf, _ => false
  | .finite _, .inf => false
  | .finite _, .ninf => true
  | .finite a, .finite b => decide (b < a)

def digitsToNat (cs : List Char) : Nat :=
  cs.foldl (fun n c => 10 * n + (c.toNat - 48)) 0

/-- Rest of a digit group after a digit: digits, with single underscores
strictly between digits. -/
def digitpartAux : List Char → Bool
  | [] => true
  | '_' :: c :: cs => c.isDigit && digitpartAux cs
  | c :: cs => c.isDigit && digitpartAux cs

/-- A Python numeric digit group: nonempty, starts with a digit, underscores
only between digits. -/
def isDigitpart : List Char → Bool
  | [] => false
  | c :: cs => c.isDigit && digitpartAux cs

/-- Numeric value of a digit group (underscores skipped). -/
def digitsVal (cs : List Char) : Nat :=
  digitsToNat (cs.filter Char.isDigit)

/-- Number of digits of a digit group (underscores not counted). -/
def digitCount (cs : List Char) : Nat :=
  (cs.filter Char.isDigit).length

def parseSignChars : List Char → Int × List Char
  | '+' :: cs => (1, cs)
  | '-' :: cs => (-1, cs)
  | cs => (1, cs)

/-- Split at the first character satisfying `p`, if any. -/
def splitOnceChars (p : Char → Bool) : List Char → List Char × Option (List Char)
  | [] => ([], none)
  | c :: cs =>
    if p c then ([], some cs)
    else
      let r := splitOnceChars p cs
      (c :: r.1, r.2)

/-- Unsigned decimal mantissa `m / 10 ^ k` as the pair `(m, k)`: `digits`,
`digits.`, `.digits` or `digits.digits`, each digit group with Python's
underscore rule. -/
def parseMantissa (cs : List Char) : Option (Nat × Nat) :=
  let r := splitOnceChars (· = '.') cs
  match r.2 with
  | none => if isDigitpart r.1 then some (digitsVal r.1, 0) else none
  | some f =>
    if (r.1.isEmpty || isDigitpart r.1) && (f.isEmpty || isDigitpart f) &&
        (!r.1.isEmpty || !f.isEmpty) then
      some (digitsVal r.1 * 10 ^ digitCount f + digitsVal f, digitCount f)
    else none

def parseExp (cs : List Char) : Option Int :=
  let r := parseSignChars cs
  if isDigitpart r.2 then some (r.1 * digitsVal r.2) else none

/-- Base-2 logarithm with explicit fuel, so the kernel evaluates it (the
fuel `n` suffices for input `n`). -/
def log2Fuel : Nat → Nat → Nat
  | 0, _ => 0
  | fuel + 1, n => if n ≥ 2 then log2Fuel fuel (n / 2) + 1 else 0

def natLog2 (n : Nat) : Nat :=
  log2Fuel n n

/-- `⌊log₂ (num / den)⌋` for positive `num / den`.  For `num < den` the
minimal `k` with `num * 2 ^ k ≥ den` lies within two of `natLog2 (den/num)`,
so three candidates are checked. -/
def floorLog2 (num den : Nat) : Int :=
  if num ≥ den then (natLog2 (num / den) : Int)
  else
    let k0 := natLog2 (den / num)
    if num * 2 ^ k0 ≥ den then -(k0 : Int)
    else if num * 2 ^ (k0 + 1) ≥ den then -((k0 : Int) + 1)
    else -((k0 : Int) + 2)

/-- Round `a / b` to the nearest integer, ties to even. -/
def roundHalfEven (a b : Nat) : Nat :=
  let q := a / b
  let r := a % b
  if 2 * r < b then q
  else if 2 * r > b then q + 1
  else if q % 2 = 0 then q else q + 1

/-- Round the nonnegative rational `num / den` to the nearest IEEE binary64
value (ties to even; subnormal grid below `2 ^ (-1022)`; underflow to zero):
`none` on overflow to infinity, otherwise `some (n, pe)` encoding the exact
value `n * 2 ^ pe`. -/
def roundToDoubleParts (num den : Nat) : Option (Nat × Int) :=
  let e := floorLog2 num den
  let pe : Int := if e < -1022 then -1074 else e - 52
  let a := num * 2 ^ (-pe).toNat
  let b := den * 2 ^ pe.toNat
  let n := roundHalfEven a b
  let overflow : Bool :=
    if pe ≥ 0 then n * 2 ^ pe.toNat ≥ 2 ^ 1024 else n ≥ 2 ^ (1024 + (-pe).toNat)
  if overflow then none else some (n, pe)

/-- The binary64 double nearest to `sign * num / den`, as a `PyFloat` whose
finite case carries the double's exact rational value. -/
def doubleOfRat (sign : Int) (num den : Nat) : PyFloat :=
  match roundToDoubleParts num den with
  | none => if sign < 0 then .ninf else .inf
  | some (n, pe) =>
    .finite
      (if pe ≥ 0 then mkRat (sign * (n * 2 ^ pe.toNat)) 1
       else mkRat (sign * n) (2 ^ (-pe).toNat))

/-- Python `float(s)`; `none` models a raised `ValueError`. -/
def pyfloat (s : String) : Option PyFloat :=
  let cs := stripChars s.data
  let sg := parseSignChars cs
  let low := sg.2.map Char.toLower
  if low = ['n', 'a', 'n'] then some .nan
  else if low = ['i', 'n', 'f'] || low = ['i', 'n', 'f', 'i', 'n', 'i', 't', 'y'] then
    some (if sg.1 < 0 then .ninf else .inf)
  else
    let me := splitOnceChars (fun c => c = 'e' || c = 'E') sg.2
    match me.2 with
    | none => (parseMantissa me.1).map (fun m => doubleOfRat sg.1 m.1 (10 ^ m.2))
    | some e => do
      let m ← parseMantissa me.1
      let ev ← parseExp e
      if ev ≥ 0 then pure (doubleOfRat sg.1 (m.1 * 10 ^ ev.toNat) (10 ^ m.2))
      else pure (doubleOfRat sg.1 m.1 (10 ^ (m.2 + ev.natAbs)))

/-! ### wanwu_lambda.py: accept_q and accept_types -/

/-- Embedding of `accept_q` (src/wanwu_lambda.py): the `q` value for one
comma-delimited Accept header part.  `none` models the `ValueError` raised by
`float` on a malformed value. -/
def accept_q (accept_part : String) : Option PyFloat :=
  let p1 := pypartition accept_part ';'
  let accept_params := pystrip p1.2.2
  if !(pystartswith accept_params "q") then some (.finite 1)
  else
    let p2 := pypartition accept_params '='
    let qvalue_etc := pystrip p2.2.2
    let p3 := pypartition qvalue_etc ';'
    pyfloat p3.1

/-- The float literal `0.99` of accept_types, as its exact binary64 value. -/
def literal099 : PyFloat :=
  doubleOfRat 1 99 100

/-- A sort key as recorded in `qs`, once nan keys are excluded: either a
finite double value or -inf. -/
inductive QKey where
  | ninf
  | fin (q : ℚ)
deriving DecidableEq

def QKey.le : QKey → QKey → Prop
  | .ninf, _ => True
  | .fin _, .ninf => False
  | .fin a, .fin b => a ≤ b

instance : LE QKey := ⟨QKey.le⟩

instance : DecidableRel (fun a b : QKey => a ≤ b) := fun a b =>
  match a, b with
  | .ninf, _ => .isTrue trivial
  | .fin _, .ninf => .isFalse id
  | .fin x, .fin y => inferInstanceAs (Decidable (x ≤ y))

lemma qkey_le_trans : ∀ {a b c : QKey}, a ≤ b → b ≤ c → a ≤ c
  | .ninf, _, _, _, _ => trivial
  | .fin _, .ninf, _, h, _ => absurd h id
  | .fin _, .fin _, .ninf, _, h => absurd h id
  | .fin _, .fin _, .fin _, h1, h2 => le_trans (α := ℚ) h1 h2

lemma qkey_le_total : ∀ a b : QKey, a ≤ b ∨ b ≤ a
  | .ninf, _ => Or.inl trivial
  | .fin _, .ninf => Or.inr trivial
  | .fin x, .fin y => le_total x y

/-- One run of the while loop in `accept_types`: parts with `q > 0.99` are
yielded immediately in original order (`parts.pop(i)`), the rest stay behind
with their recorded quality (`qs[parts[i]] = q`).  `none` models a
`ValueError` escaping the generator.  A nan quality also maps to `none`: nan
is never front-loaded (every nan comparison is false), and a nan key would
hand `list.sort` an incomparable key, whose resulting order the total-order
sort model deliberately leaves unspecified, so such runs lie outside the
modelled fragment.  `.inf` cannot reach the else branch (it exceeds 0.99). -/
def accept_pass : List String → Option (List String × List (String × QKey))
  | [] => some ([], [])
  | p :: rest => do
    let q ← accept_q p
    let r ← accept_pass rest
    if pyFloatGt q literal099 then pure (p :: r.1, r.2)
    else
      match q with
      | .finite x => pure (r.1, (p, QKey.fin x) :: r.2)
      | .ninf => pure (r.1, (p, QKey.ninf) :: r.2)
      | .inf => none
      | .nan => none

/-- The ordering used by `parts.sort(key=qs.get, reverse=True)`: descending by
recorded quality.  Python's sort is stable and so is `List.insertionSort`, and
a stable sort's output against a total order is unique, so the two agree. -/
def qDescend (a b : String × QKey) : Prop := b.2 ≤ a.2

instance : DecidableRel qDescend := fun a b => inferInstanceAs (Decidable (b.2 ≤ a.2))

instance : IsTotal (String × QKey) qDescend := ⟨fun a b => qkey_le_total b.2 a.2⟩

instance : IsTrans (String × QKey) qDescend := ⟨fun _ _ _ h1 h2 => qkey_le_trans h2 h1⟩

/-- Embedding of `accept_types` (src/wanwu_lambda.py), run to completion:
split the header on commas, front-load the parts with `q > 0.99` in original
order, then yield the rest sorted stably by descending quality. -/
def accept_types (accept_header : String) : Option (List String) := do
  let parts := pysplit accept_header ','
  let r ← accept_pass parts
  pure (r.1 ++ (List.insertionSort qDescend r.2).map Prod.fst)

example : pyfloat "0.5" = some (.finite (mkRat 1 2)) := by decide
example : pyfloat "0.99" = some (.finite (mkRat 4458563631096791 (2 ^ 52))) := by decide
example : pyfloat "0.7" = some (.finite (mkRat 3152519739159347 (2 ^ 52))) := by decide
example : pyfloat "0.1" = some (.finite (mkRat 3602879701896397 (2 ^ 55))) := by decide
example : pyfloat "5e-324" = some (.finite (mkRat 1 (2 ^ 1074))) := by decide
example : pyfloat "1e-400" = some (.finite 0) := by decide
example : pyfloat "1e400" = some .inf := by decide
example : pyfloat "-1e400" = some .ninf := by decide
example : pyfloat "1_0" = some (.finite 10) := by decide
example : pyfloat "1_.0" = none := by decide
example : pyfloat "1__0" = none := by decide
example : pyfloat "+nAn" = some .nan := by decide
example : pyfloat "-Infinity" = some .ninf := by decide
example : pyfloat "1.e5" = some (.finite 100000) := by decide
example : pyfloat ".5_5" = some (.finite (mkRat 2476979795053773 (2 ^ 52))) := by decide
example : literal099 = .finite (mkRat 4458563631096791 (2 ^ 52)) := by decide
example :
    (pyfloat "0.99000000000000002").map (fun q => pyFloatGt q literal099) =
      some false := by decide
example : accept_q "text/html;q=1" = some (.finite 1) := by decide
example : accept_q " text/plain;q=0.5" = some (.finite (mkRat 1 2)) := by decide
example : accept_q "text/html" = some (.finite 1) := by decide
example : accept_q "a;q=x" = none := by decide
example :
    accept_q "a;\u00A0q=0.2" = some (.finite (mkRat 3602879701896397 (2 ^ 54))) := by
  decide
example :
    accept_types "text/html;q=1, text/plain;q=0.5, */*;q=0.1" =
      some ["text/html;q=1", " text/plain;q=0.5", " */*;q=0.1"] := by decide
example : accept_types "a, b;q=0.5, c" = some ["a", " c", " b;q=0.5"] := by decide

/-! ### wanwu_lambda.py: request handler and router

`Request` and `Response` are the two namedtuples; the handler's return value
is the dict built by `response_to_handler_out`, whose `headers` entry always
has exactly the three fixed keys, modelled as a record.  `json.dumps` with its
default options (ASCII escaping, `", "` and `": "` separators, insertion
order) is modelled for the exact dict shape `resource_root` serializes. -/

structure Request where
  method : String
  path : String
  body : Option String
  query : List (String × String)
  headers : List (String × String)
deriving DecidableEq

structure Response where
  status : Nat
  content_type : String
  headers : List (String × String)
  body : String
deriving DecidableEq

/-- The lambda event fields the handler reads; `none` models JSON null. -/
structure Event where
  path : String
  httpMethod : String
  body : Option String
  queryStringParameters : Option (List (String × String))
  headers : List (String × String)

/-- Embedding of `request_from_lambda_event`. -/
def request_from_lambda_event (event : Event) : Request :=
  { path := event.path
    method := event.httpMethod
    body := event.body
    query :=
      match event.queryStringParameters with
      | none => []
      | some q => q
    headers := event.headers }

/-- Lowercase hex digit, as produced by `json.dumps` escapes. -/
def hexDigit (n : Nat) : Char :=
  if n < 10 then Char.ofNat (48 + n) else Char.ofNat (87 + n)

def u16Escape (n : Nat) : List Char :=
  ['\\', 'u', hexDigit (n / 4096 % 16), hexDigit (n / 256 % 16),
   hexDigit (n / 16 % 16), hexDigit (n % 16)]

/-- One character of a JSON string under `json.dumps` defaults
(`ensure_ascii=True`): short escapes, printable ASCII verbatim, everything
else as `\uXXXX` (with surrogate pairs beyond the BMP). -/
def jsonEscapeChar (c : Char) : List Char :=
  if c = '"' then ['\\', '"']
  else if c = '\\' then ['\\', '\\']
  else if c = '\n' then ['\\', 'n']
  else if c = '\r' then ['\\', 'r']
  else if c = '\t' then ['\\', 't']
  else if c = '\x08' then ['\\', 'b']
  else if c = '\x0c' then ['\\', 'f']
  else if 32 ≤ c.toNat && c.toNat ≤ 126 then [c]
  else if c.toNat < 65536 then u16Escape c.toNat
  else
    u16Escape (55296 + (c.toNat - 65536) / 1024) ++
      u16Escape (56320 + (c.toNat - 65536) % 1024)

def jsonString (s : String) : String :=
  ⟨'"' :: s.data.foldr (fun c acc => jsonEscapeChar c ++ acc) ['"']⟩

def jsonOfOptString : Option String → String
  | none => "null"
  | some s => jsonString s

/-- `json.dumps` of a string-to-string dict, default separators. -/
def jsonStrDict (d : List (String × String)) : String :=
  "\x7b" ++
    String.intercalate ", " (d.map (fun kv => jsonString kv.1 ++ ": " ++ jsonString kv.2)) ++
    "\x7d"

/-- Embedding of `resource_root`: echo the request fields as a JSON body.
The body is `json.dumps` of the dict with keys path, method, body, query,
headers in insertion order. -/
def resource_root (request : Request) : Response :=
  { status := 200
    content_type := "application/json"
    headers := []
    body :=
      "\x7b\"path\": " ++ jsonString request.path ++
        ", \"method\": " ++ jsonString request.method ++
        ", \"body\": " ++ jsonOfOptString request.body ++
        ", \"query\": " ++ jsonStrDict request.query ++
        ", \"headers\": " ++ jsonStrDict request.headers ++ "\x7d" }

/-- Embedding of `resource_not_found`: the root response with status 404. -/
def resource_not_found (request : Request) : Response :=
  { resource_root request with status := 404 }

/-- Embedding of `route_request`. -/
def route_request (path : String) : Request → Response :=
  if path = "/" then resource_root else resource_not_found

/-- The fixed headers dict of the handler envelope. -/
structure HandlerHeaders where
  contentLanguage : String
  contentLength : Nat
  contentType : String
deriving DecidableEq

structure HandlerOut where
  statusCode : Nat
  body : String
  headers : HandlerHeaders
deriving DecidableEq

/-- Embedding of `response_to_handler_out`: `Content-Length` is Python
`len(response.body)`, i.e. the number of characters. -/
def response_to_handler_out (response : Response) : HandlerOut :=
  { statusCode := response.status
    body := response.body
    headers :=
      { contentLanguage := "en"
        contentLength := response.body.length
        contentType := response.content_type ++ "; charset=utf-8" } }

/-- Embedding of `lambda_handler` (the `context` argument is deleted unused). -/
def lambda_handler (event : Event) : HandlerOut :=
  response_to_handler_out (route_request event.path (request_from_lambda_event event))

/-- Byte length of a string under UTF-8, for stating Content-Length facts. -/
def utf8Len (s : String) : Nat :=
  s.data.foldl (fun n c => n + c.utf8Size) 0

def rootEvent : Event :=
  { path := "/"
    httpMethod := "GET"
    body := none
    queryStringParameters := none
    headers := [] }

example :
    (lambda_handler rootEvent).body =
      "\x7b\"path\": \"/\", \"method\": \"GET\", \"body\": null, \"query\": \x7b\x7d, \"headers\": \x7b\x7d\x7d" := by
  decide

/-! ### build_api_gateway.py

The boto3 client is modelled as a record of the responses the remote control
plane would give; each provisioning function returns its outcome (with
`Except.error` carrying the text of a raised exception, prefixed by the
exception class name just as `str(err)` contains it) together with the trace
of remote calls it issued. -/

structure Gateway where
  name : String
  id : String
deriving DecidableEq

structure GwResource where
  path : String
  id : String
deriving DecidableEq

inductive GatewayCall where
  | getRestApis
  | createRestApi (name : String)
  | getResources (restApiId : String)
  | createResource (restApiId parentId pathPart : String)
deriving DecidableEq

structure GatewayClient where
  /-- `items` of `get_rest_apis(limit=100)`. -/
  rest_apis_page : List Gateway
  /-- `id` assigned by `create_rest_api`. -/
  created_api_id : String
  /-- `items` of `get_resources(restApiId=..., limit=100)`. -/
  resources_page : List GwResource
  /-- Outcome of `create_resource`: the created resource, or a `ClientError`
  whose text is carried in the `error` case. -/
  create_resource_result : Except String GwResource

/-- Embedding of `create_gateway`: list the first page, fail on overflow,
return a matching gateway's id, else create one. -/
def create_gateway (client : GatewayClient) (name : String) :
    Except String String × List GatewayCall :=
  let gateways := client.rest_apis_page
  if gateways.length ≥ 100 then
    (.error "OverflowError: There may be more API Gateways configured", [.getRestApis])
  else
    match gateways.find? (fun g => g.name == name) with
    | some gateway => (.ok gateway.id, [.getRestApis])
    | none => (.ok client.created_api_id, [.getRestApis, .createRestApi name])

/-- Embedding of `resource_by_path`: list the first page, fail on overflow,
return the resource with the exact path, else raise `RuntimeError`. -/
def resource_by_path (client : GatewayClient) (gateway_id path : String) :
    Except String GwResource × List GatewayCall :=
  let resources := client.resources_page
  if resources.length ≥ 100 then
    (.error "OverflowError: There may be more resources configured", [.getResources gateway_id])
  else
    match resources.find? (fun r => r.path == path) with
    | some resource => (.ok resource, [.getResources gateway_id])
    | none =>
      (.error ("RuntimeError: " ++ path ++ " resource not found. How odd"),
       [.getResources gateway_id])

/-- Embedding of `_new_wild_child`: one `create_resource` call with pathPart
`\x7bproxy+\x7d`. -/
def new_wild_child (client : GatewayClient) (gateway_id parent_resource_id : String) :
    Except String GwResource × List GatewayCall :=
  (client.create_resource_result,
   [.createResource gateway_id parent_resource_id "\x7bproxy+\x7d"])

/-- Embedding of `wild_child`: try to create the wildcard child; on a
`ConflictException` fall back to `resource_by_path` for `/\x7bproxy+\x7d`;
re-raise any other `ClientError`. -/
def wild_child (client : GatewayClient) (gateway_id parent_resource_id : String) :
    Except String GwResource × List GatewayCall :=
  let attempt := new_wild_child client gateway_id parent_resource_id
  match attempt.1 with
  | .ok r => (.ok r, attempt.2)
  | .error err =>
    if !(pyContains err "ConflictException") then (.error err, attempt.2)
    else
      let lookup := resource_by_path client gateway_id "/\x7bproxy+\x7d"
      (lookup.1, attempt.2 ++ lookup.2)

/-- Embedding of `lambda_arn_parts`: `dict(zip(labels, arn.split(':')))` as an
association list (the seven label keys are distinct, so lookup agrees with
the Python dict). -/
def lambda_arn_parts (arn : String) : List (String × String) :=
  List.zip
    ["\"arn\"", "\"aws\"", "\"lambda\"", "region", "account_id", "\"function\"",
     "function_name"]
    (pysplit arn ':')

/-! ### build_lambda.py

`hashlib.sha256().digest()` and `base64.b64encode` are external primitives and
are passed to `create_lambda` as function parameters over byte lists.  Python 3
equality between `bytes` and `str` values is modelled by `pyEq` on a tagged
value type: values of different types are never equal. -/

structure Role where
  Path : String
  RoleName : String
  RoleId : String
  Arn : String
  CreateDate : String
  AssumeRolePolicyDocument : String
  Description : String
deriving DecidableEq

inductive IamCall where
  | createRole (roleName : String)
  | getRole (roleName : String)
  | attachRolePolicy (roleName policyArn : String)
deriving DecidableEq

structure IamClient where
  /-- Outcome of `create_role`: the role dict, or a `ClientError` text. -/
  create_role_result : Except String Role
  /-- The role dict returned by `get_role`. -/
  get_role_result : Role

/-- The managed policy ARN attached by `assign_lambda_policy`. -/
def lambdaPolicyArn : String :=
  "arn:aws:iam::aws:policy/service-role/AWSLambdaBasicExecutionRole"

/-- Embedding of `assign_lambda_policy`: the one `attach_role_policy` call it
issues. -/
def assign_lambda_policy (role_name : String) : List IamCall :=
  [.attachRolePolicy role_name lambdaPolicyArn]

/-- Embedding of `lambda_role`: create the role; on `EntityAlreadyExists`
fetch it instead; re-raise any other error; then attach the policy and return
the role. -/
def lambda_role (client : IamClient) (role_name : String) :
    Except String Role × List IamCall :=
  match client.create_role_result with
  | .ok boto_role =>
    (.ok boto_role, [.createRole role_name] ++ assign_lambda_policy boto_role.RoleName)
  | .error err =>
    if pyContains err "EntityAlreadyExists" then
      let boto_role := client.get_role_result
      (.ok boto_role,
       [.createRole role_name, .getRole role_name] ++ assign_lambda_policy boto_role.RoleName)
    else (.error err, [.createRole role_name])

/-- A Python value that is either `str` or `bytes`. -/
inductive PyVal where
  | strv (s : String)
  | bytesv (b : List Nat)

/-- Python 3 `==` across `str` and `bytes`: values of different types are
never equal. -/
def pyEq : PyVal → PyVal → Bool
  | .strv a, .strv b => a == b
  | .bytesv a, .bytesv b => a == b
  | _, _ => false

/-- `_TIMEOUT` in build_lambda.py. -/
def TIMEOUT_CONST : Int := 5

structure FnConfig where
  Timeout : Int
  CodeSha256 : String
deriving DecidableEq

structure FnDescr where
  Configuration : FnConfig
deriving DecidableEq

inductive LambdaCall where
  | getFunction (name : String)
  | createFunction (name role : String) (zipFile : List Nat) (timeout : Int)
  | updateFunctionConfiguration (name : String) (timeout : Int)
  | updateFunctionCode (name : String) (zipFile : List Nat)
deriving DecidableEq

structure LambdaClient where
  /-- Outcome of the first `get_function`: the function descriptor, or a
  `ClientError` text (`ResourceNotFoundException` when it does not exist). -/
  get_function_result : Except String FnDescr
  /-- Configuration returned by `update_function_configuration`. -/
  update_configuration_result : FnConfig
  /-- Descriptor returned by the `get_function` issued after a create or a
  code update. -/
  final_get_function : FnDescr

/-- Embedding of `create_lambda`.  `package_bytes` is the content of the
deployment package produced by `create_deploy_package`; `sha256` and
`b64encode` are the external `hashlib`/`base64` primitives.  The comparison
`base64.b64encode(local_sig.digest()) == lambda_sig` compares a `bytes` value
with the `str` CodeSha256 field and is modelled by `pyEq`. -/
def create_lambda (client : LambdaClient) (name role_arn : String)
    (package_bytes : List Nat) (sha256 b64encode : List Nat → List Nat) :
    Except String FnDescr × List LambdaCall :=
  match client.get_function_result with
  | .error err =>
    if !(pyContains err "ResourceNotFoundException") then (.error err, [.getFunction name])
    else
      (.ok client.final_get_function,
       [.getFunction name, .createFunction name role_arn package_bytes TIMEOUT_CONST,
        .getFunction name])
  | .ok read_lambda =>
    let reconciled :=
      if read_lambda.Configuration.Timeout ≠ TIMEOUT_CONST then
        (client.update_configuration_result,
         [.getFunction name, .updateFunctionConfiguration name TIMEOUT_CONST])
      else (read_lambda.Configuration, ([.getFunction name] : List LambdaCall))
    let local_sig := sha256 package_bytes
    let lambda_sig := reconciled.1.CodeSha256
    if pyEq (.bytesv (b64encode local_sig)) (.strv lambda_sig) then
      (.ok { Configuration := reconciled.1 }, reconciled.2)
    else
      (.ok client.final_get_function,
       reconciled.2 ++ [.updateFunctionCode name package_bytes, .getFunction name])

/-- ASCII decode of a byte list, to state when a recorded digest equals the
text of the locally computed base64 digest. -/
def bytesToStr (b : List Nat) : String :=
  ⟨b.map Char.ofNat⟩

/-! ### Supporting lemmas -/

lemma partitionChars_eq_of_not_mem (sep : Char) (cs : List Char) (h : sep ∉ cs) :
    partitionChars sep cs = (cs, false, []) := by
  induction cs with
  | nil => rfl
  | cons c t ih =>
    have hc : ¬ c = sep := fun e => h (e ▸ List.mem_cons_self c t)
    have ht : sep ∉ t := fun m => h (List.mem_cons_of_mem c m)
    simp [partitionChars, hc, ih ht]

/-! ### Theorems about the claims -/

/-- C3: for the event with path `/`, method GET, absent query parameters,
empty headers and null body, the handler returns status 200, the JSON echo
body with `path`, `method`, `body`, `query` (empty) and `headers` (empty)
fields, and a Content-Length equal to the exact byte length of that body. -/
theorem lambda_handler_root_event :
    lambda_handler rootEvent =
      { statusCode := 200
        body :=
          "\x7b\"path\": \"/\", \"method\": \"GET\", \"body\": null, \"query\": \x7b\x7d, \"headers\": \x7b\x7d\x7d"
        headers :=
          { contentLanguage := "en"
            contentLength := 72
            contentType := "application/json; charset=utf-8" } } ∧
    (lambda_handler rootEvent).headers.contentLength =
      utf8Len (lambda_handler rootEvent).body := by
  decide

/-- C4: for every event whose path is not exactly `/`, the handler returns the
not-found handler's response, which is the root handler's response for the
same request with the status overridden to 404 and every other field equal. -/
theorem lambda_handler_not_found (event : Event) (h : event.path ≠ "/") :
    lambda_handler event =
      response_to_handler_out
        { resource_root (request_from_lambda_event event) with status := 404 } ∧
    resource_not_found (request_from_lambda_event event) =
      { resource_root (request_from_lambda_event event) with status := 404 } := by
  constructor
  · unfold lambda_handler route_request
    rw [if_neg h]
    rfl
  · rfl

theorem lambda_handler_not_found_witness :
    ({ path := "/nope", httpMethod := "GET", body := none,
       queryStringParameters := none, headers := [] } : Event).path ≠ "/" ∧
    (lambda_handler
        { path := "/nope", httpMethod := "GET", body := none,
          queryStringParameters := none, headers := [] } =
      response_to_handler_out
        { resource_root
            (request_from_lambda_event
              { path := "/nope", httpMethod := "GET", body := none,
                queryStringParameters := none, headers := [] }) with
          status := 404 } ∧
    resource_not_found
        (request_from_lambda_event
          { path := "/nope", httpMethod := "GET", body := none,
            queryStringParameters := none, headers := [] }) =
      { resource_root
          (request_from_lambda_event
            { path := "/nope", httpMethod := "GET", body := none,
              queryStringParameters := none, headers := [] }) with
        status := 404 }) :=
  ⟨by decide, lambda_handler_not_found _ (by decide)⟩

/-- C9: the ARN parser maps the example Lambda ARN to region `us-east-1`,
account id `541056992659` and function name `wanwu_lambda`. -/
theorem lambda_arn_parts_example :
    List.lookup "region"
        (lambda_arn_parts "arn:aws:lambda:us-east-1:541056992659:function:wanwu_lambda") =
      some "us-east-1" ∧
    List.lookup "account_id"
        (lambda_arn_parts "arn:aws:lambda:us-east-1:541056992659:function:wanwu_lambda") =
      some "541056992659" ∧
    List.lookup "function_name"
        (lambda_arn_parts "arn:aws:lambda:us-east-1:541056992659:function:wanwu_lambda") =
      some "wanwu_lambda" := by
  decide

/-- C2 counterexample: on the example header, `accept_types` does not yield
the bare media types; it yields the raw comma-split tokens, parameters and
leading spaces included. -/
theorem accept_types_not_bare_types :
    accept_types "text/html;q=1, text/plain;q=0.5, */*;q=0.1" ≠
      some ["text/html", "text/plain", "*/*"] := by
  decide

/-- C2 (amended): the example header yields the raw tokens in the stated
precedence order; a token with no parameter list at all (no `;`) gets quality
1.0 and is front-loaded together with explicit quality-1 tokens, as the second
concrete header shows. -/
theorem accept_types_example_amended :
    accept_types "text/html;q=1, text/plain;q=0.5, */*;q=0.1" =
      some ["text/html;q=1", " text/plain;q=0.5", " */*;q=0.1"] ∧
    accept_types "a, b;q=0.5, c" = some ["a", " c", " b;q=0.5"] ∧
    ∀ part : String, ';' ∉ part.data → accept_q part = some (.finite 1) := by
  refine ⟨by decide, by decide, fun part h => ?_⟩
  have hp := partitionChars_eq_of_not_mem ';' part.data h
  simp [accept_q, pypartition, hp, pystrip, stripChars, pystartswith, isPrefixChars]

theorem accept_types_example_amended_witness :
    ';' ∉ "text/html".data ∧ accept_q "text/html" = some (.finite 1) :=
  ⟨by decide, accept_types_example_amended.2.2 "text/html" (by decide)⟩

/-- The mock client for C1: the function exists, its timeout is already 5,
and its recorded CodeSha256 is the text `QUJD`. -/
def matchingDigestClient : LambdaClient :=
  { get_function_result := .ok { Configuration := { Timeout := 5, CodeSha256 := "QUJD" } }
    update_configuration_result := { Timeout := 5, CodeSha256 := "QUJD" }
    final_get_function := { Configuration := { Timeout := 5, CodeSha256 := "QUJD" } } }

/-- A stand-in digest primitive for C1. -/
def constDigest : List Nat → List Nat := fun _ => [65, 66, 67]

/-- A stand-in base64 primitive for C1: the encoding of the digest above is
the bytes of `QUJD`. -/
def constB64 : List Nat → List Nat := fun _ => [81, 85, 74, 68]

/-- C1 (code bug): even when the text of the locally computed base64 digest
equals the remote recorded CodeSha256, `create_lambda` still issues an
`update_function_code` call carrying the package bytes, because
`base64.b64encode` returns `bytes` while `CodeSha256` is a `str`, and in
Python 3 a `bytes` value never equals a `str` value.  The digest comparison
branch is therefore unreachable and the idempotent skip never happens. -/
theorem create_lambda_updates_despite_matching_digest :
    bytesToStr (constB64 (constDigest [1])) =
      matchingDigestClient.update_configuration_result.CodeSha256 ∧
    create_lambda matchingDigestClient "wanwu_lambda" "role-arn" [1] constDigest constB64 =
      (.ok { Configuration := { Timeout := 5, CodeSha256 := "QUJD" } },
       [.getFunction "wanwu_lambda", .updateFunctionCode "wanwu_lambda" [1],
        .getFunction "wanwu_lambda"]) := by
  refine ⟨by decide, ?_⟩
  rfl

/-- C6: whenever the remote listing returns a page of at least 100 items (the
fixed page-size limit), both `create_gateway` and `resource_by_path` raise the
fatal overflow error; their traces contain only the listing call, so no create
call is issued and no result is returned. -/
theorem page_limit_aborts (client : GatewayClient) (name gateway_id path : String)
    (h1 : client.rest_apis_page.length ≥ 100)
    (h2 : client.resources_page.length ≥ 100) :
    create_gateway client name =
      (.error "OverflowError: There may be more API Gateways configured",
       [.getRestApis]) ∧
    resource_by_path client gateway_id path =
      (.error "OverflowError: There may be more resources configured",
       [.getResources gateway_id]) := by
  constructor
  · unfold create_gateway
    rw [if_pos h1]
  · unfold resource_by_path
    rw [if_pos h2]

/-- A client whose listings are both at the page-size limit. -/
def overflowClient : GatewayClient :=
  { rest_apis_page := List.replicate 100 { name := "g", id := "i" }
    created_api_id := "new"
    resources_page := List.replicate 100 { path := "/", id := "r" }
    create_resource_result := .error "unused" }

theorem page_limit_aborts_witness :
    overflowClient.rest_apis_page.length ≥ 100 ∧
    overflowClient.resources_page.length ≥ 100 ∧
    (create_gateway overflowClient "wanwu" =
        (.error "OverflowError: There may be more API Gateways configured",
         [.getRestApis]) ∧
      resource_by_path overflowClient "gw" "/" =
        (.error "OverflowError: There may be more resources configured",
         [.getResources "gw"])) :=
  ⟨by decide, by decide,
   page_limit_aborts overflowClient "wanwu" "gw" "/" (by decide) (by decide)⟩

/-- C7: `wild_child` issues the create call; on success it returns the created
resource; if and only if the remote error text names a ConflictException it
recovers by looking the resource up at `/\x7bproxy+\x7d` and returns that
lookup's outcome; every other remote error is re-raised unchanged. -/
theorem wild_child_conflict_recovery (client : GatewayClient)
    (gateway_id parent_resource_id : String) :
    (∀ r, client.create_resource_result = .ok r →
        wild_child client gateway_id parent_resource_id =
          (.ok r, [.createResource gateway_id parent_resource_id "\x7bproxy+\x7d"])) ∧
    (∀ err, client.create_resource_result = .error err →
        pyContains err "ConflictException" = true →
        wild_child client gateway_id parent_resource_id =
          ((resource_by_path client gateway_id "/\x7bproxy+\x7d").1,
           .createResource gateway_id parent_resource_id "\x7bproxy+\x7d" ::
             (resource_by_path client gateway_id "/\x7bproxy+\x7d").2)) ∧
    (∀ err, client.create_resource_result = .error err →
        pyContains err "ConflictException" = false →
        wild_child client gateway_id parent_resource_id =
          (.error err, [.createResource gateway_id parent_resource_id "\x7bproxy+\x7d"])) := by
  refine ⟨fun r h => ?_, fun err h hc => ?_, fun err h hc => ?_⟩
  · simp [wild_child, new_wild_child, h]
  · simp [wild_child, new_wild_child, h, hc]
  · simp [wild_child, new_wild_child, h, hc]

/-- A client whose create_resource reports a naming conflict while the
wildcard resource is present in the listing. -/
def conflictClient : GatewayClient :=
  { rest_apis_page := []
    created_api_id := "new"
    resources_page := [{ path := "/\x7bproxy+\x7d", id := "wc" }]
    create_resource_result :=
      .error "An error occurred (ConflictException) when calling the CreateResource operation" }

theorem wild_child_conflict_recovery_witness :
    conflictClient.create_resource_result =
      .error "An error occurred (ConflictException) when calling the CreateResource operation" ∧
    pyContains "An error occurred (ConflictException) when calling the CreateResource operation"
        "ConflictException" = true ∧
    wild_child conflictClient "gw" "root" =
      (.ok { path := "/\x7bproxy+\x7d", id := "wc" },
       [.createResource "gw" "root" "\x7bproxy+\x7d", .getResources "gw"]) := by
  refine ⟨rfl, by decide, ?_⟩
  rw [(wild_child_conflict_recovery conflictClient "gw" "root").2.1 _ rfl (by decide)]
  rfl

/-- C8: `lambda_role` attempts the create; on success it attaches the managed
log-execution policy to the created role and returns it; if the remote reports
the role already exists it fetches the existing role, still attaches the
policy, and returns it; any other remote error is re-raised unchanged. -/
theorem lambda_role_idempotent (client : IamClient) (role_name : String) :
    (∀ r, client.create_role_result = .ok r →
        lambda_role client role_name =
          (.ok r, [.createRole role_name, .attachRolePolicy r.RoleName lambdaPolicyArn])) ∧
    (∀ err, client.create_role_result = .error err →
        pyContains err "EntityAlreadyExists" = true →
        lambda_role client role_name =
          (.ok client.get_role_result,
           [.createRole role_name, .getRole role_name,
            .attachRolePolicy client.get_role_result.RoleName lambdaPolicyArn])) ∧
    (∀ err, client.create_role_result = .error err →
        pyContains err "EntityAlreadyExists" = false →
        lambda_role client role_name = (.error err, [.createRole role_name])) := by
  refine ⟨fun r h => ?_, fun err h hc => ?_, fun err h hc => ?_⟩
  · simp [lambda_role, assign_lambda_policy, h]
  · simp [lambda_role, assign_lambda_policy, h, hc]
  · simp [lambda_role, assign_lambda_policy, h, hc]

/-- A role dict as `get_role` would return it. -/
def existingRole : Role :=
  { Path := "/"
    RoleName := "wanwu_lambda_role"
    RoleId := "AROEXAMPLE"
    Arn := "arn:aws:iam::541056992659:role/wanwu_lambda_role"
    CreateDate := "2017-01-01T00:00:00Z"
    AssumeRolePolicyDocument := "doc"
    Description := "" }

/-- An IAM client whose create_role reports the role already exists. -/
def roleExistsClient : IamClient :=
  { create_role_result :=
      .error "An error occurred (EntityAlreadyExists) when calling the CreateRole operation"
    get_role_result := existingRole }

theorem lambda_role_idempotent_witness :
    roleExistsClient.create_role_result =
      .error "An error occurred (EntityAlreadyExists) when calling the CreateRole operation" ∧
    pyContains "An error occurred (EntityAlreadyExists) when calling the CreateRole operation"
        "EntityAlreadyExists" = true ∧
    lambda_role roleExistsClient "wanwu_lambda_role" =
      (.ok existingRole,
       [.createRole "wanwu_lambda_role", .getRole "wanwu_lambda_role",
        .attachRolePolicy "wanwu_lambda_role" lambdaPolicyArn]) := by
  refine ⟨rfl, by decide, ?_⟩
  rw [(lambda_role_idempotent roleExistsClient "wanwu_lambda_role").2.1 _ rfl (by decide)]
  rfl

/-! ### The q value is read from the first parameter only (C10) -/

lemma stripChars_cons_of_ws (c : Char) (cs : List Char) (h : pyWhitespace c = true) :
    stripChars (c :: cs) = stripChars cs := by
  simp [stripChars, List.dropWhile_cons, h]

lemma stripChars_cons_of_not_ws (c : Char) (cs : List Char) (h : pyWhitespace c = false) :
    ∃ t, stripChars (c :: cs) = c :: t := by
  unfold stripChars
  rw [show (c :: cs).dropWhile pyWhitespace = c :: cs by simp [List.dropWhile_cons, h]]
  rw [List.reverse_cons, List.dropWhile_append]
  by_cases hE : (cs.reverse.dropWhile pyWhitespace).isEmpty
  · rw [if_pos hE]
    exact ⟨[], by simp [List.dropWhile_cons, h]⟩
  · rw [if_neg hE]
    exact ⟨(cs.reverse.dropWhile pyWhitespace).reverse, by simp⟩

lemma isPrefixQ_strip_cons (c : Char) (cs : List Char) (h : pyWhitespace c = false) :
    isPrefixChars ['q'] (stripChars (c :: cs)) = ('q' == c) := by
  obtain ⟨t, ht⟩ := stripChars_cons_of_not_ws c cs h
  rw [ht]
  simp [isPrefixChars]

/-- Whether the stripped parameter list begins with `q` is decided by its
first `;`-delimited segment alone. -/
lemma startsWithQ_first_param (after : List Char) :
    isPrefixChars ['q'] (stripChars (partitionChars ';' after).1) =
      isPrefixChars ['q'] (stripChars after) := by
  induction after with
  | nil => rfl
  | cons c cs ih =>
    by_cases hc : c = ';'
    · subst hc
      rw [show partitionChars ';' (';' :: cs) = ([], true, cs) from by simp [partitionChars]]
      rw [isPrefixQ_strip_cons ';' cs rfl]
      rfl
    · have hpart : partitionChars ';' (c :: cs) =
          (c :: (partitionChars ';' cs).1, (partitionChars ';' cs).2.1,
           (partitionChars ';' cs).2.2) := by
        simp [partitionChars, hc]
      rw [hpart]
      by_cases hw : pyWhitespace c = true
      · rw [stripChars_cons_of_ws c _ hw, stripChars_cons_of_ws c cs hw]
        exact ih
      · have hw' : pyWhitespace c = false := by simpa using hw
        rw [isPrefixQ_strip_cons c _ hw', isPrefixQ_strip_cons c cs hw']

lemma accept_q_eq_one_of (part : String)
    (h : isPrefixChars ['q'] (stripChars (partitionChars ';' part.data).2.2) = false) :
    accept_q part = some (.finite 1) := by
  simp [accept_q, pypartition, pystrip, pystartswith, h]

/-- C10: for every Accept-header token whose first `;`-delimited parameter
does not begin (after stripping) with the character `q`, `accept_q` returns
quality 1.0, whatever `q` parameters appear later in the parameter list: the
quality is only ever read from the first parameter after the media type. -/
theorem accept_q_first_param_not_q (part : String)
    (h : isPrefixChars ['q']
        (stripChars (partitionChars ';' ((partitionChars ';' part.data).2.2)).1) = false) :
    accept_q part = some (.finite 1) :=
  accept_q_eq_one_of part
    ((startsWithQ_first_param ((partitionChars ';' part.data).2.2)).symm.trans h)

theorem accept_q_first_param_not_q_witness :
    isPrefixChars ['q']
        (stripChars
          (partitionChars ';'
            ((partitionChars ';' ("text/html;level=1;q=0.2" : String).data).2.2)).1) = false ∧
    accept_q "text/html;level=1;q=0.2" = some (.finite 1) :=
  ⟨by decide, accept_q_first_param_not_q "text/html;level=1;q=0.2" (by decide)⟩

/-! ### Precedence ordering of accept_types (C5) -/

end Wanwu
